import Mathlib

/-!
Verification development for the Python_API repository.

The repository consists of flat Python scripts that issue HTTP requests,
parse JSON and print formatted text.  This file gives a shallow embedding
of the parts of the code the specification makes claims about:

* `safe_api_request` from `src/part4_error_handling.py` (the retry /
  error-classification wrapper),
* `get_user_info` and `search_posts` from `src/part3_user_input.py`
  (input validation before issuing a request),
* the menu-driven `dashboard` loop of `src/part5_real_api.py` together
  with the actions it dispatches to (`display_weather`, `display_crypto`,
  `display_top_cryptos`, `compare_cryptos`, `create_post`,
  `save_to_json`, `display_openweather`).

The HTTP transport is modelled as an oracle (`AttemptResult`) describing
what each attempt of `requests.get` / `requests.post` observes: a raised
connection/timeout error, another `requests.RequestException`, or a
received response with a status code and a body that either parses as
JSON or does not.  Python exceptions that the code does NOT catch are
modelled with the `Except PyExn` monad; exceptions the code catches are
resolved inside the corresponding definition, mirroring the source
`try/except` structure.  Console printing is not modelled as an output
stream; where a claim refers to a printed message, the constructor of
the result type documents the exact line the code prints on that path.
-/

/-- JSON values, as produced by `response.json()`.  Numbers are modelled
as integers: no claim depends on fractional values, only on presence of
keys and on Python truthiness. -/
inductive Json where
  | null : Json
  | bool (b : Bool) : Json
  | num (n : Int) : Json
  | str (s : String) : Json
  | arr (xs : List Json) : Json
  | obj (kvs : List (String × Json)) : Json

/-- Python truthiness of a JSON value: `None`, `False`, `0`, `""`, `[]`
and `\x7b\x7d` are falsy, everything else is truthy.  This is what an
`if not data:` test in the source observes. -/
def Json.falsy : Json → Bool
  | .null => true
  | .bool b => !b
  | .num n => n == 0
  | .str s => s.data.isEmpty
  | .arr xs => xs.isEmpty
  | .obj kvs => kvs.isEmpty

/-- Python exceptions that can escape the code under analysis (the ones
no enclosing `except` clause catches). -/
inductive PyExn where
  | keyError (key : String) : PyExn
  | typeError : PyExn
  | attributeError : PyExn
  | indexError : PyExn
  | valueError : PyExn
deriving DecidableEq

/-- Python subscripting `data[k]` with a string key: on a dict it returns
the value or raises `KeyError`; on any non-dict value it raises
`TypeError`. -/
def Json.getKey : Json → String → Except PyExn Json
  | .obj kvs, k =>
    match kvs.find? (fun p => p.1 == k) with
    | some p => .ok p.2
    | none => .error (.keyError k)
  | _, _ => .error .typeError

/-- Python `data.get(k, default)`: on a dict it returns the value or the
default; on any non-dict value it raises `AttributeError` (no `get`
attribute). -/
def Json.pyGet : Json → String → Json → Except PyExn Json
  | .obj kvs, k, default =>
    .ok (((kvs.find? (fun p => p.1 == k)).map Prod.snd).getD default)
  | _, _, _ => .error .attributeError

/-- Python `x[0]` as used on `weather_list`: first element of a list, or
`IndexError` on an empty list, or `TypeError` on a non-sequence.  (A
non-empty string would yield its first character, on which the
subsequent string subscript raises `TypeError` anyway; the model raises
the `TypeError` here.) -/
def Json.index0 : Json → Except PyExn Json
  | .arr (x :: _) => .ok x
  | .arr [] => .error .indexError
  | _ => .error .typeError

/-- Python `condition.title()`: a string method, raising
`AttributeError` on non-strings. -/
def Json.pyTitle : Json → Except PyExn Json
  | .str s => .ok (.str s)
  | _ => .error .attributeError

/-- Body of a received HTTP response: either it parses as JSON, or
`response.json()` raises a JSON decode error carrying the given
message.  (In the `requests` library this decode error is a
`requests.exceptions.JSONDecodeError`, a subclass of
`requests.exceptions.RequestException`.) -/
inductive Body where
  | jsonOf (payload : Json) : Body
  | notJson (errMsg : String) : Body

/-- What one HTTP call observes, as seen from the calling code:
* `netFail` — `requests.get`/`post` raises `ConnectionError` or `Timeout`;
* `reqExn msg` — it raises some other `requests.RequestException`;
* `resp status body` — a response is received with this status code and
  body. -/
inductive AttemptResult where
  | netFail : AttemptResult
  | reqExn (msg : String) : AttemptResult
  | resp (status : Nat) (body : Body) : AttemptResult

/-- Status codes for which `response.raise_for_status()` raises
`HTTPError`: the 4xx and 5xx ranges. -/
def errStatus (s : Nat) : Bool := decide (400 ≤ s) && decide (s < 600)

/-!
## Part 4: `safe_api_request` (src/part4_error_handling.py, lines 28-71)
-/

/-- Return value of `safe_api_request`.  Each constructor is one
`return` site of the source function:
* `success data` — line 42, `\x7b"success": True, "data": response.json()\x7d`;
* `failedTransient retries` — line 52, `\x7b"success": False, "error":
  f"Failed after \x7bretries\x7d attempts"\x7d` (the `ConnectionError`/`Timeout`
  branch on the last attempt);
* `failedHttp status` — line 61, `\x7b"success": False, "error": f"HTTP
  Error: \x7bstatus\x7d"\x7d` (the `HTTPError` branch);
* `failedRequest msg` — line 68, `\x7b"success": False, "error": f"Request
  failed: \x7be\x7d"\x7d` (the generic `RequestException` branch, which also
  catches the JSON decode error raised by `response.json()`);
* `noReturn` — the `for` loop finishes without returning, and Python
  returns `None` (only reachable when `retries < 1`). -/
inductive ApiResult where
  | success (data : Json) : ApiResult
  | failedTransient (retries : Nat) : ApiResult
  | failedHttp (status : Nat) : ApiResult
  | failedRequest (msg : String) : ApiResult
  | noReturn : ApiResult

/-- Error string carried in the `"error"` field of the returned dict,
exactly as the source formats it (`none` for a success or for the
`None` return). -/
def ApiResult.errorMsg : ApiResult → Option String
  | .success _ => none
  | .failedTransient retries =>
    some ("Failed after " ++ toString retries ++ " attempts")
  | .failedHttp status => some ("HTTP Error: " ++ toString status)
  | .failedRequest msg => some ("Request failed: " ++ msg)
  | .noReturn => none

/-- Observable trace of one call to `safe_api_request`: the returned
value, the number of attempts made (iterations of the `for` loop that
executed `requests.get`), and the number of `time.sleep(2)` calls. -/
structure ExecTrace where
  result : ApiResult
  attempts : Nat
  sleeps : Nat

/-- Loop body of `safe_api_request` (lines 33-56): `attempt` is the
current value of the loop variable, `fuel` the number of iterations the
`range(1, retries + 1)` loop still has (so the top-level call passes
`fuel = retries` and `attempt = 1`).  A network-level failure on the
last attempt (`attempt == retries`) returns the transient failure;
otherwise the code sleeps 2 seconds and retries.  An `HTTPError` from
`raise_for_status`, or any other `RequestException` (including the JSON
decode error), returns immediately. -/
def safeApiGo (env : Nat → AttemptResult) (retries : Nat) (attempt : Nat) :
    Nat → ExecTrace
  | 0 => ⟨.noReturn, 0, 0⟩
  | fuel + 1 =>
    match env attempt with
    | .netFail =>
      if attempt == retries then ⟨.failedTransient retries, 1, 0⟩
      else
        let rest := safeApiGo env retries (attempt + 1) fuel
        ⟨rest.result, rest.attempts + 1, rest.sleeps + 1⟩
    | .reqExn msg => ⟨.failedRequest msg, 1, 0⟩
    | .resp status body =>
      if errStatus status then ⟨.failedHttp status, 1, 0⟩
      else
        match body with
        | .jsonOf p => ⟨.success p, 1, 0⟩
        | .notJson e => ⟨.failedRequest e, 1, 0⟩

/-- `safe_api_request(url, timeout, retries)` from
src/part4_error_handling.py.  The `url` and `timeout` arguments only
parameterize the transport and are absorbed into the oracle `env`,
which gives the outcome of the attempt with each 1-based index. -/
def safe_api_request (env : Nat → AttemptResult) (retries : Nat) : ExecTrace :=
  safeApiGo env retries 1 retries

/-!
## Specification-side outcome type (spec.md section 3)

These definitions follow the words of the specification, to be compared
with the source embedding above: the spec describes the return value of
the executor as a tagged `RequestOutcome` with an `ErrorKind`.
-/

/-- ErrorKind of spec.md section 3: `Transient` (retry-eligible),
`HttpStatus code` (4xx/5xx response, not retried), `ClientError`
(malformed request / non-JSON body, not retried). -/
inductive ErrorKind where
  | Transient : ErrorKind
  | HttpStatus (code : Nat) : ErrorKind
  | ClientError : ErrorKind
deriving DecidableEq

/-- RequestOutcome of spec.md section 3: tagged result of one logical
request. -/
inductive RequestOutcome where
  | Success (payload : Json) : RequestOutcome
  | Failure (kind : ErrorKind) (message : String) : RequestOutcome

/-- Refinement map from the return sites of the source function to the
outcome taxonomy of spec.md section 7: the connection/timeout branch is
`Transient`, the `HTTPError` branch is `HttpStatus` with the code, the
generic `RequestException` branch (malformed request, non-JSON body) is
`ClientError`.  The message is the `"error"` string the code builds.
`noReturn` maps to nothing: the spec has no variant for returning
without a value. -/
def specOutcome : ApiResult → Option RequestOutcome
  | .success p => some (.Success p)
  | .failedTransient retries =>
    some (.Failure .Transient ("Failed after " ++ toString retries ++ " attempts"))
  | .failedHttp status =>
    some (.Failure (.HttpStatus status) ("HTTP Error: " ++ toString status))
  | .failedRequest msg =>
    some (.Failure .ClientError ("Request failed: " ++ msg))
  | .noReturn => none

/-!
## Lemmas about `safe_api_request`
-/

/-- When every attempt fails at the network level, the loop with `fuel`
remaining iterations makes exactly `fuel` attempts, sleeps `fuel - 1`
times, and returns the transient failure, provided the fuel accounting
matches the source loop (`attempt + fuel = retries + 1`). -/
theorem safeApiGo_all_net (env : Nat → AttemptResult)
    (henv : ∀ i, env i = .netFail) :
    ∀ fuel retries attempt, 1 ≤ fuel → attempt + fuel = retries + 1 →
    safeApiGo env retries attempt fuel =
      ⟨.failedTransient retries, fuel, fuel - 1⟩ := by
  intro fuel
  induction fuel with
  | zero => intro retries attempt h1 _; omega
  | succ f ih =>
    intro retries attempt _ hsum
    simp only [safeApiGo, henv attempt]
    by_cases hlast : attempt = retries
    · have hf : f = 0 := by omega
      subst hf hlast
      simp
    · have hne : (attempt == retries) = false := by
        simp [beq_iff_eq]; omega
      rw [hne]
      simp only [Bool.false_eq_true, if_false]
      have hf1 : 1 ≤ f := by omega
      rw [ih retries (attempt + 1) hf1 (by omega)]
      have hff : f - 1 + 1 = f := by omega
      simp [hff]

/-- When the first `K - attempt` attempts (1-based indices `attempt`
up to `K - 1`) fail at the network level and attempt `K` receives a
non-error response with a JSON body, the loop returns the parsed
payload after exactly `K - attempt + 1` attempts with `K - attempt`
sleeps. -/
theorem safeApiGo_success_at (env : Nat → AttemptResult) (K : Nat)
    (p : Json) (s : Nat) (hs : errStatus s = false)
    (hK : env K = .resp s (.jsonOf p))
    (hpre : ∀ i, i < K → env i = .netFail) :
    ∀ fuel retries attempt, attempt ≤ K → K ≤ retries →
    attempt + fuel = retries + 1 →
    safeApiGo env retries attempt fuel =
      ⟨.success p, K - attempt + 1, K - attempt⟩ := by
  intro fuel
  induction fuel with
  | zero => intro retries attempt h1 h2 hsum; omega
  | succ f ih =>
    intro retries attempt haK hKr hsum
    by_cases hhit : attempt = K
    · subst hhit
      simp [safeApiGo, hK, hs]
    · have hlt : attempt < K := by omega
      simp only [safeApiGo, hpre attempt hlt]
      have hne : (attempt == retries) = false := by
        simp [beq_iff_eq]; omega
      rw [hne]
      simp only [Bool.false_eq_true, if_false]
      rw [ih retries (attempt + 1) (by omega) hKr (by omega)]
      have h1 : K - (attempt + 1) + 1 + 1 = K - attempt + 1 := by omega
      have h2 : K - (attempt + 1) + 1 = K - attempt := by omega
      simp [h1, h2]

/-- With at least one iteration of fuel and correct fuel accounting,
the loop never falls through to the implicit `None` return. -/
theorem safeApiGo_returns (env : Nat → AttemptResult) :
    ∀ fuel retries attempt, 1 ≤ fuel → attempt + fuel = retries + 1 →
    (safeApiGo env retries attempt fuel).result ≠ .noReturn := by
  intro fuel
  induction fuel with
  | zero => intro retries attempt h1 _; omega
  | succ f ih =>
    intro retries attempt _ hsum
    rcases henv : env attempt with _ | msg | ⟨status, body⟩
    · by_cases hlast : attempt = retries
      · subst hlast
        simp [safeApiGo, henv]
      · have hne : (attempt == retries) = false := by
          simp [beq_iff_eq]; omega
        simp only [safeApiGo, henv, hne, Bool.false_eq_true, if_false]
        exact ih retries (attempt + 1) (by omega) (by omega)
    · simp [safeApiGo, henv]
    · by_cases herr : errStatus status = true
      · simp [safeApiGo, henv, herr]
      · simp only [Bool.not_eq_true] at herr
        cases body with
        | jsonOf p => simp [safeApiGo, henv, herr]
        | notJson e => simp [safeApiGo, henv, herr]

/-!
## Claims about the Resilient Request Executor (part 4)
-/

/-- C2 counterexample: with `maxAttempts = 1` and an always-transient
target, the code returns the error string "Failed after 1 attempts"
(capital F, as line 54 of src/part4_error_handling.py formats it), not
the "failed after 1 attempts" stated by the claim. -/
theorem C2_message_counterexample :
    (safe_api_request (fun _ => AttemptResult.netFail) 1).result.errorMsg =
      some "Failed after 1 attempts" ∧
    "Failed after 1 attempts" ≠ "failed after 1 attempts" := by
  constructor
  · rfl
  · decide

/-- C2 (amended): for every `maxAttempts = N ≥ 1`, if every attempt
fails with a transient (connection/timeout) error, `safe_api_request`
makes exactly N attempts, sleeps the fixed backoff only between
attempts (N − 1 sleeps, none after the last), and returns the
transient-kind failure whose message is "Failed after N attempts". -/
theorem C2_transient_exhaustion (env : Nat → AttemptResult) (N : Nat)
    (hN : 1 ≤ N) (henv : ∀ i, env i = AttemptResult.netFail) :
    safe_api_request env N = ⟨.failedTransient N, N, N - 1⟩ ∧
    specOutcome (safe_api_request env N).result =
      some (.Failure .Transient ("Failed after " ++ toString N ++ " attempts")) := by
  have h := safeApiGo_all_net env henv N N 1 hN (by omega)
  refine ⟨h, ?_⟩
  unfold safe_api_request
  rw [h]
  simp [specOutcome]

/-- C2 witness: the amended claim evaluated at N = 3. -/
theorem C2_transient_exhaustion_witness :
    safe_api_request (fun _ => AttemptResult.netFail) 3 =
      ⟨.failedTransient 3, 3, 2⟩ ∧
    specOutcome (safe_api_request (fun _ => AttemptResult.netFail) 3).result =
      some (.Failure .Transient ("Failed after " ++ toString 3 ++ " attempts")) :=
  C2_transient_exhaustion (fun _ => AttemptResult.netFail) 3 (by decide)
    (fun _ => rfl)

/-- C3: for every `maxAttempts ≥ 1`, if the first attempt receives a
response with an error HTTP status code (4xx/5xx, e.g. 404),
`safe_api_request` returns the HTTP-status failure carrying that code
after exactly one attempt, with no retry and no sleep. -/
theorem C3_http_error_no_retry (env : Nat → AttemptResult) (N s : Nat)
    (b : Body) (hN : 1 ≤ N) (h1 : env 1 = AttemptResult.resp s b)
    (hs : errStatus s = true) :
    safe_api_request env N = ⟨.failedHttp s, 1, 0⟩ ∧
    specOutcome (safe_api_request env N).result =
      some (.Failure (.HttpStatus s) ("HTTP Error: " ++ toString s)) := by
  obtain ⟨M, rfl⟩ : ∃ M, N = M + 1 := ⟨N - 1, by omega⟩
  constructor
  · unfold safe_api_request
    simp [safeApiGo, h1, hs]
  · unfold safe_api_request
    simp [safeApiGo, h1, hs, specOutcome]

/-- C3 witness: a 404 on the first attempt with `maxAttempts = 3`. -/
theorem C3_http_error_no_retry_witness :
    safe_api_request (fun _ => AttemptResult.resp 404 (Body.jsonOf Json.null)) 3 =
      ⟨.failedHttp 404, 1, 0⟩ ∧
    specOutcome
      (safe_api_request (fun _ => AttemptResult.resp 404 (Body.jsonOf Json.null)) 3).result =
      some (.Failure (.HttpStatus 404) ("HTTP Error: " ++ toString 404)) :=
  C3_http_error_no_retry (fun _ => AttemptResult.resp 404 (Body.jsonOf Json.null))
    3 404 (Body.jsonOf Json.null) (by decide) rfl (by decide)

/-- C4: for every K with 1 ≤ K ≤ maxAttempts, if the first K − 1
attempts fail transiently and attempt K receives a non-error response
with a JSON body, `safe_api_request` returns the success carrying the
parsed payload, makes exactly K attempts, and sleeps K − 1 times. -/
theorem C4_success_after_transients (env : Nat → AttemptResult)
    (N K s : Nat) (p : Json) (hK1 : 1 ≤ K) (hKN : K ≤ N)
    (hs : errStatus s = false)
    (hhit : env K = AttemptResult.resp s (Body.jsonOf p))
    (hpre : ∀ i, i < K → env i = AttemptResult.netFail) :
    safe_api_request env N = ⟨.success p, K, K - 1⟩ ∧
    specOutcome (safe_api_request env N).result = some (.Success p) := by
  have h := safeApiGo_success_at env K p s hs hhit hpre N N 1 hK1 hKN (by omega)
  have hKa : K - 1 + 1 = K := by omega
  rw [safe_api_request, h, hKa]
  exact ⟨rfl, rfl⟩

/-- C4 witness: success on attempt 2 of 3 after one transient failure. -/
theorem C4_success_after_transients_witness :
    safe_api_request
      (fun i => if i < 2 then AttemptResult.netFail
                else AttemptResult.resp 200 (Body.jsonOf (Json.str "ok"))) 3 =
      ⟨.success (Json.str "ok"), 2, 1⟩ ∧
    specOutcome
      (safe_api_request
        (fun i => if i < 2 then AttemptResult.netFail
                  else AttemptResult.resp 200 (Body.jsonOf (Json.str "ok"))) 3).result =
      some (.Success (Json.str "ok")) :=
  C4_success_after_transients _ 3 2 200 (Json.str "ok") (by decide) (by decide)
    (by decide) (by simp)
    (fun i hi => by simp [hi])

/-- C5 counterexample: with `maxAttempts = 3` and a 200 response whose
body does not parse as JSON, the code returns the error string
"Request failed: " followed by the decode error (line 70 of
src/part4_error_handling.py), not the "invalid response body" stated by
the claim. -/
theorem C5_message_counterexample :
    (safe_api_request
        (fun _ => AttemptResult.resp 200 (Body.notJson "Expecting value")) 3).result.errorMsg =
      some "Request failed: Expecting value" ∧
    "Request failed: Expecting value" ≠ "invalid response body" := by
  constructor
  · rfl
  · decide

/-- C5 (amended): if the first attempt receives a response with a
non-error status whose body is not valid JSON, `safe_api_request`
returns the client-error-kind failure whose message is "Request
failed: " followed by the decode error, after exactly one attempt,
with no retry and no sleep.  (The JSON decode error raised by
`response.json()` is a `requests.RequestException` and is caught by
the generic branch.) -/
theorem C5_bad_json_no_retry (env : Nat → AttemptResult) (N s : Nat)
    (e : String) (hN : 1 ≤ N)
    (h1 : env 1 = AttemptResult.resp s (Body.notJson e))
    (hs : errStatus s = false) :
    safe_api_request env N = ⟨.failedRequest e, 1, 0⟩ ∧
    specOutcome (safe_api_request env N).result =
      some (.Failure .ClientError ("Request failed: " ++ e)) := by
  obtain ⟨M, rfl⟩ : ∃ M, N = M + 1 := ⟨N - 1, by omega⟩
  constructor
  · unfold safe_api_request
    simp [safeApiGo, h1, hs]
  · unfold safe_api_request
    simp [safeApiGo, h1, hs, specOutcome]

/-- C5 witness: the amended claim evaluated at a concrete non-JSON 200
response with `maxAttempts = 3`. -/
theorem C5_bad_json_no_retry_witness :
    safe_api_request
      (fun _ => AttemptResult.resp 200 (Body.notJson "Expecting value")) 3 =
      ⟨.failedRequest "Expecting value", 1, 0⟩ ∧
    specOutcome
      (safe_api_request
        (fun _ => AttemptResult.resp 200 (Body.notJson "Expecting value")) 3).result =
      some (.Failure .ClientError ("Request failed: " ++ "Expecting value")) :=
  C5_bad_json_no_retry (fun _ => AttemptResult.resp 200 (Body.notJson "Expecting value"))
    3 200 "Expecting value" (by decide) rfl (by decide)

/-- C6: for every retry budget `maxAttempts ≥ 1` and every possible
sequence of attempt outcomes, `safe_api_request` terminates by
returning a tagged outcome value (a Success or a Failure of the spec
taxonomy): it never falls through to Python's implicit `None` return,
and every exception path is caught inside the function.  (Termination
itself is inherent in the total Lean embedding; raising is impossible
because every modelled exception is consumed by a `try/except`
branch of the source.) -/
theorem C6_always_returns_outcome (env : Nat → AttemptResult) (N : Nat)
    (hN : 1 ≤ N) :
    ∃ o, specOutcome (safe_api_request env N).result = some o := by
  have h := safeApiGo_returns env N N 1 hN (by omega)
  unfold safe_api_request
  rcases hres : (safeApiGo env N 1 N).result with p | r | s | m | _
  · exact ⟨.Success p, by simp [specOutcome]⟩
  · exact ⟨.Failure .Transient ("Failed after " ++ toString r ++ " attempts"),
      by simp [specOutcome]⟩
  · exact ⟨.Failure (.HttpStatus s) ("HTTP Error: " ++ toString s),
      by simp [specOutcome]⟩
  · exact ⟨.Failure .ClientError ("Request failed: " ++ m), by simp [specOutcome]⟩
  · exact absurd hres h

/-- C6 witness: a concrete all-transient run with `maxAttempts = 2`
returns a tagged outcome. -/
theorem C6_always_returns_outcome_witness :
    ∃ o, specOutcome
      (safe_api_request (fun _ => AttemptResult.netFail) 2).result = some o :=
  C6_always_returns_outcome (fun _ => AttemptResult.netFail) 2 (by decide)

/-!
## Single-attempt request pattern shared by parts 3 and 5

Every fetch function in src/part3_user_input.py and
src/part5_real_api.py wraps one `requests.get`/`post` call,
`raise_for_status()` and `response.json()` in a
`try: ... except requests.RequestException: ...` block that reports the
error and yields `None`.  `requestJson` is that pattern: it returns the
parsed payload on a non-error response with a JSON body and `None` on
any caught request-level failure (raised exception, error status, or
JSON decode failure).
-/

/-- Result of one `try: get / raise_for_status / json` block with a
blanket `except requests.RequestException` handler: `some payload` on
success, `none` when the handler caught the failure. -/
def requestJson : AttemptResult → Option Json
  | .netFail => none
  | .reqExn _ => none
  | .resp status body =>
    if errStatus status then none
    else
      match body with
      | .jsonOf p => some p
      | .notJson _ => none

/-!
## Part 3: input validation (src/part3_user_input.py, lines 15-66)
-/

/-- Python `s.strip()`: the string with leading and trailing whitespace
removed (defined over the character list so that concrete instances
evaluate by kernel reduction). -/
def pyStrip (s : String) : String :=
  String.mk
    (((s.data.dropWhile Char.isWhitespace).reverse.dropWhile
      Char.isWhitespace).reverse)

/-- Python `s.lower()` over ASCII letters. -/
def pyLower (s : String) : String := String.mk (s.data.map Char.toLower)

/-- Characters `int()` accepts as digits: the Unicode Nd (decimal
number) category.  Modelled over the ASCII, Arabic-Indic, Extended
Arabic-Indic, Devanagari and Fullwidth digit blocks; the remaining Nd
blocks of Unicode behave exactly like these and are outside the
modelled repertoire. -/
def pyCharIsDecimal (c : Char) : Bool :=
  (0x30 ≤ c.toNat && c.toNat ≤ 0x39) ||
  (0x660 ≤ c.toNat && c.toNat ≤ 0x669) ||
  (0x6F0 ≤ c.toNat && c.toNat ≤ 0x6F9) ||
  (0x966 ≤ c.toNat && c.toNat ≤ 0x96F) ||
  (0xFF10 ≤ c.toNat && c.toNat ≤ 0xFF19)

/-- Characters with Unicode property Numeric_Type=Digit that are NOT
decimal digits: `str.isdigit()` is true for them, yet `int()` raises
`ValueError` on them.  Modelled over the Latin-1 superscripts
(U+00B9 ¹, U+00B2 ², U+00B3 ³) and the superscript/subscript digit
blocks (U+2070, U+2074-U+2079, U+2080-U+2089); other such characters
(e.g. circled digits) behave the same and are outside the modelled
repertoire. -/
def pyCharIsDigitOnly (c : Char) : Bool :=
  c.toNat == 0xB9 || c.toNat == 0xB2 || c.toNat == 0xB3 ||
  c.toNat == 0x2070 || (0x2074 ≤ c.toNat && c.toNat ≤ 0x2079) ||
  (0x2080 ≤ c.toNat && c.toNat ≤ 0x2089)

/-- Characters for which Python `str.isdigit()` is true: the decimal
digits plus the digit-only characters.  The two classes differ — that
is precisely the `isdigit`-true/`int`-raises gap of CPython. -/
def pyCharIsDigit (c : Char) : Bool :=
  pyCharIsDecimal c || pyCharIsDigitOnly c

/-- Python `s.isdigit()`: true iff the string is non-empty and every
character is a digit character. -/
def pyIsDigit (s : String) : Bool :=
  !s.data.isEmpty && s.data.all pyCharIsDigit

/-- Decimal value of a single Nd digit character (its offset within
its block). -/
def pyDecimalVal (c : Char) : Nat :=
  if 0x30 ≤ c.toNat && c.toNat ≤ 0x39 then c.toNat - 0x30
  else if 0x660 ≤ c.toNat && c.toNat ≤ 0x669 then c.toNat - 0x660
  else if 0x6F0 ≤ c.toNat && c.toNat ≤ 0x6F9 then c.toNat - 0x6F0
  else if 0x966 ≤ c.toNat && c.toNat ≤ 0x96F then c.toNat - 0x966
  else if 0xFF10 ≤ c.toNat && c.toNat ≤ 0xFF19 then c.toNat - 0xFF10
  else 0

/-- Numeric value of a string of decimal digits, as `int(s)` computes
it. -/
def strToNat (s : String) : Nat :=
  s.data.foldl (fun n c => n * 10 + pyDecimalVal c) 0

/-- Python `int(s)` on the digit-string domain reachable through the
`isdigit()` guard: it succeeds exactly when every character is a
decimal (Nd) digit — any script, even mixed — and raises `ValueError`
otherwise, in particular on digit-only characters such as U+00B2 ².
(The other literal forms `int()` accepts — signs, surrounding
whitespace, underscores — fail `isdigit()` and are never reached
through the guard, so they are not modelled.) -/
def pyInt (s : String) : Except PyExn Int :=
  if !s.data.isEmpty && s.data.all pyCharIsDecimal then
    .ok (strToNat s : Int)
  else .error .valueError

/-- Range test `1 <= n <= 10` used by both validations. -/
def inRange1to10 (n : Int) : Bool := decide (1 ≤ n) && decide (n ≤ 10)

/-- Guard `not user_id.isdigit() or not (1 <= int(user_id) <= 10)` from
lines 22 and 47 of src/part3_user_input.py, with Python's left-to-right
short-circuit evaluation: when `isdigit()` is false the `or` is already
true and `int(user_id)` is never evaluated.  Returns `true` when the
input is rejected. -/
def userIdGuardFails (s : String) : Except PyExn Bool :=
  if !(pyIsDigit s) then pure true
  else do
    let n ← pyInt s
    pure (!inRange1to10 n)

/-- Observable outcome of `get_user_info` / `search_posts`:
* `invalid` — the guard rejected the input; the function printed the
  validation error ("User ID must be a number!" / "User ID must be
  numeric!") and returned WITHOUT issuing any HTTP request;
* `requestFailed` — a request was issued and the
  `except requests.RequestException` handler reported a failure;
* `noPosts` — (search only) the request succeeded with a falsy list;
* `displayed` — the request succeeded and the result was printed. -/
inductive LookupOutcome where
  | invalid : LookupOutcome
  | requestFailed : LookupOutcome
  | noPosts : LookupOutcome
  | displayed : LookupOutcome
deriving DecidableEq

/-- `get_user_info()` from src/part3_user_input.py lines 15-38.  The
raw input line is passed in (the source does not strip it); the HTTP
transport is the oracle `env`.  On a parsed response the source prints
`data["name"]`, `data["email"]`, `data["phone"]`, `data["website"]`:
a `KeyError` there is outside the `except requests.RequestException`
clause and escapes. -/
def get_user_info (env : AttemptResult) (user_id : String) :
    Except PyExn LookupOutcome := do
  let bad ← userIdGuardFails user_id
  if bad then pure .invalid
  else
    match requestJson env with
    | none => pure .requestFailed
    | some d => do
      let _ ← d.getKey "name"
      let _ ← d.getKey "email"
      let _ ← d.getKey "phone"
      let _ ← d.getKey "website"
      pure .displayed

/-- `search_posts()` from src/part3_user_input.py lines 40-66.  The
input line is stripped before validation (line 45).  On success the
source iterates the returned list printing each `post["title"]`;
iterating a non-list truthy value subscripts its elements with a string
key and raises `TypeError`, outside the `except` clause. -/
def search_posts (env : AttemptResult) (user_id_raw : String) :
    Except PyExn LookupOutcome := do
  let bad ← userIdGuardFails (pyStrip user_id_raw)
  if bad then pure .invalid
  else
    match requestJson env with
    | none => pure .requestFailed
    | some posts =>
      if posts.falsy then pure .noPosts
      else
        match posts with
        | .arr ps => do
          ps.forM (fun p => do
            let _ ← p.getKey "title"
            pure ())
          pure .displayed
        | _ => .error .typeError

/-- Inputs the part-3 validation rejects without raising: the
`isdigit()` test fails (the `or` then short-circuits before `int()`),
or the string consists of decimal digits whose value lies outside
1..10. -/
def guardRejectsSafely (s : String) : Bool :=
  !pyIsDigit s ||
  (s.data.all pyCharIsDecimal && !inRange1to10 (strToNat s : Int))

/-- On a string failing `isdigit()` the guard short-circuits to
rejection without evaluating `int()`. -/
theorem userIdGuardFails_nondigit (s : String) (h : pyIsDigit s = false) :
    userIdGuardFails s = .ok true := by
  unfold userIdGuardFails
  rw [h]
  rfl

/-- On a non-empty all-decimal string `int()` succeeds and the guard
reports exactly the range test. -/
theorem userIdGuardFails_decimal (s : String) (hd : pyIsDigit s = true)
    (hdec : s.data.all pyCharIsDecimal = true) :
    userIdGuardFails s = .ok (!inRange1to10 (strToNat s : Int)) := by
  unfold userIdGuardFails pyInt
  rw [hd]
  have hne : (!s.data.isEmpty) = true := by
    unfold pyIsDigit at hd
    cases hb : s.data.isEmpty
    · rfl
    · rw [hb] at hd
      simp at hd
  have hC : (!s.data.isEmpty && s.data.all pyCharIsDecimal) = true := by
    rw [hne, hdec]
    rfl
  rw [hC]
  rfl

/-- On a string that passes `isdigit()` but contains a digit character
that is not a decimal digit, `int(user_id)` raises `ValueError`
INSIDE the guard — there is no enclosing handler, so the exception
escapes the validation check. -/
theorem userIdGuardFails_raises (s : String) (hd : pyIsDigit s = true)
    (hdec : s.data.all pyCharIsDecimal = false) :
    userIdGuardFails s = .error .valueError := by
  unfold userIdGuardFails pyInt
  rw [hd]
  have hC : (!s.data.isEmpty && s.data.all pyCharIsDecimal) = false := by
    rw [hdec]
    exact Bool.and_false _
  rw [hC]
  rfl

/-- C9 counterexample: at the input "²" (U+00B2, SUPERSCRIPT TWO)
Python's `isdigit()` is true, so the guard at line 22 of
src/part3_user_input.py does not short-circuit and evaluates
`int("²")`, which raises an uncaught `ValueError`: the validation
check CAN raise, and the exception escapes both actions — refuting the
claim's never-raises conjunct. -/
theorem C9_unicode_digit_counterexample :
    pyIsDigit "²" = true ∧
    get_user_info (AttemptResult.resp 200 (Body.jsonOf Json.null)) "²" =
      .error .valueError ∧
    search_posts (AttemptResult.resp 200 (Body.jsonOf Json.null)) "²" =
      .error .valueError :=
  ⟨by decide, rfl, rfl⟩

/-- C9 (amended): for every input string rejected by the validation
without reaching a failing conversion — one failing `isdigit()` (in
particular any string with a non-digit character, or the empty
string), where the `or` short-circuits before `int()`, or one made of
decimal digits whose value lies outside 1..10 — the user-lookup and
post-search actions print a validation error and return without
issuing any HTTP request and without raising.  The never-raises
guarantee does NOT extend to all inputs: on a string that passes
`isdigit()` but contains a non-decimal digit character (such as "²"),
`int(user_id)` raises a `ValueError` that no handler catches, and the
exception escapes the action.  (For `search_posts` the validated
string is the stripped input, as at line 45 of the source.) -/
theorem C9_validation_rejects_before_request (s : String)
    (env : AttemptResult) :
    (guardRejectsSafely s = true → get_user_info env s = .ok .invalid) ∧
    (guardRejectsSafely (pyStrip s) = true →
      search_posts env s = .ok .invalid) ∧
    (pyIsDigit s = true → s.data.all pyCharIsDecimal = false →
      get_user_info env s = .error .valueError) ∧
    (pyIsDigit (pyStrip s) = true →
      (pyStrip s).data.all pyCharIsDecimal = false →
      search_posts env s = .error .valueError) := by
  have guard_rejects : ∀ u : String, guardRejectsSafely u = true →
      userIdGuardFails u = .ok true := by
    intro u hu
    by_cases hd : pyIsDigit u = true
    · unfold guardRejectsSafely at hu
      rw [hd] at hu
      simp only [Bool.not_true, Bool.false_or, Bool.and_eq_true] at hu
      rw [userIdGuardFails_decimal u hd hu.1, hu.2]
    · exact userIdGuardFails_nondigit u (by simpa using hd)
  refine ⟨fun h => ?_, fun h => ?_, fun hd hdec => ?_, fun hd hdec => ?_⟩
  · unfold get_user_info
    rw [guard_rejects s h]
    rfl
  · unfold search_posts
    rw [guard_rejects (pyStrip s) h]
    rfl
  · unfold get_user_info
    rw [userIdGuardFails_raises s hd hdec]
    rfl
  · unfold search_posts
    rw [userIdGuardFails_raises (pyStrip s) hd hdec]
    rfl

/-- C9 witness: the amended claim evaluated at the non-numeric input
"abc", the out-of-range input " 11 " (rejected after stripping), and
the superscript-digit input "²" (raising), each under a transport
oracle that would succeed. -/
theorem C9_validation_rejects_before_request_witness :
    get_user_info (AttemptResult.resp 200 (Body.jsonOf Json.null)) "abc" =
      .ok .invalid ∧
    search_posts (AttemptResult.resp 200 (Body.jsonOf Json.null)) " 11 " =
      .ok .invalid ∧
    get_user_info (AttemptResult.resp 200 (Body.jsonOf Json.null)) "²" =
      .error .valueError ∧
    search_posts (AttemptResult.resp 200 (Body.jsonOf Json.null)) "²" =
      .error .valueError :=
  ⟨(C9_validation_rejects_before_request "abc"
      (AttemptResult.resp 200 (Body.jsonOf Json.null))).1 (by decide),
   (C9_validation_rejects_before_request " 11 "
      (AttemptResult.resp 200 (Body.jsonOf Json.null))).2.1 (by decide),
   (C9_validation_rejects_before_request "²"
      (AttemptResult.resp 200 (Body.jsonOf Json.null))).2.2.1 (by decide)
     (by decide),
   (C9_validation_rejects_before_request "²"
      (AttemptResult.resp 200 (Body.jsonOf Json.null))).2.2.2 (by decide)
     (by decide)⟩

/-!
## Part 5: the dashboard and its actions (src/part5_real_api.py)
-/

/-- Keys of the `CITIES` dictionary (lines 24-45).  The coordinate
values only feed the request URL, which is not modelled. -/
def cityNames : List String :=
  ["delhi", "mumbai", "bangalore", "chennai", "kolkata", "hyderabad",
   "new york", "london", "tokyo", "sydney", "paris", "berlin", "dubai",
   "singapore", "toronto", "san francisco", "moscow", "beijing",
   "rio de janeiro", "cape town"]

/-- `get_weather(city_name)` (lines 58-86): lowercases and strips the
city, returns `None` (printing the city list) when it is not a key of
`CITIES`, otherwise issues the request with the usual
`except requests.RequestException` handling. -/
def get_weather (env : AttemptResult) (city_name : String) : Option Json :=
  if cityNames.contains (pyStrip (pyLower city_name)) then requestJson env
  else none

/-- `display_weather(city_name)` (lines 128-158): returns silently when
`get_weather` yields `None` or a falsy payload; otherwise subscripts
`data["current_weather"]` (an uncaught `KeyError`/`TypeError` hazard)
and its `temperature`, `windspeed`, `winddirection` fields, then uses
`current.get("weathercode", 0)`. -/
def display_weather (env : AttemptResult) (city_name : String) :
    Except PyExn Unit :=
  match get_weather env city_name with
  | none => pure ()
  | some d =>
    if d.falsy then pure ()
    else do
      let cur ← d.getKey "current_weather"
      let _ ← cur.getKey "temperature"
      let _ ← cur.getKey "windspeed"
      let _ ← cur.getKey "winddirection"
      let _ ← cur.pyGet "weathercode" (.num 0)
      pure ()

/-- `get_crypto_price(coin_name)` (lines 180-197): maps the lowercased,
stripped name through `CRYPTO_IDS` to build the URL (not modelled — it
does not affect control flow) and issues the request with the usual
`except requests.RequestException` handling. -/
def get_crypto_price (env : AttemptResult) (_coin_name : String) :
    Option Json :=
  requestJson env

/-- `display_crypto(coin_name)` (lines 227-248): prints a not-found
message when the data is `None` or falsy; otherwise subscripts
`data["quotes"]["USD"]` — a `KeyError` here is caught by NO handler —
then `name`, `symbol` and the six USD fields. -/
def display_crypto (env : AttemptResult) (coin_name : String) :
    Except PyExn Unit :=
  match get_crypto_price env coin_name with
  | none => pure ()
  | some d =>
    if d.falsy then pure ()
    else do
      let q ← d.getKey "quotes"
      let usd ← q.getKey "USD"
      let _ ← d.getKey "name"
      let _ ← d.getKey "symbol"
      let _ ← usd.getKey "price"
      let _ ← usd.getKey "market_cap"
      let _ ← usd.getKey "volume_24h"
      let _ ← usd.getKey "percent_change_1h"
      let _ ← usd.getKey "percent_change_24h"
      let _ ← usd.getKey "percent_change_7d"
      pure ()

/-- `get_top_cryptos(limit)` (lines 251-262): one request with the
usual handling; `limit` only feeds the query parameters. -/
def get_top_cryptos (env : AttemptResult) : Option Json := requestJson env

/-- One iteration of the `for coin in data:` loop of
`display_top_cryptos` (lines 305-310): subscripts
`coin["quotes"]["USD"]`, `percent_change_24h`, then `rank`, `name`,
`price`.  No handler catches a `KeyError` here. -/
def topCryptoRow (coin : Json) : Except PyExn Unit := do
  let q ← coin.getKey "quotes"
  let usd ← q.getKey "USD"
  let _ ← usd.getKey "percent_change_24h"
  let _ ← coin.getKey "rank"
  let _ ← coin.getKey "name"
  let _ ← usd.getKey "price"
  pure ()

/-- `display_top_cryptos()` (lines 292-312): returns silently on `None`
or falsy data, iterates a list row by row; iterating a truthy non-list
JSON value subscripts its elements with string keys and raises
`TypeError`. -/
def display_top_cryptos (env : AttemptResult) : Except PyExn Unit :=
  match get_top_cryptos env with
  | none => pure ()
  | some d =>
    if d.falsy then pure ()
    else
      match d with
      | .arr coins => coins.forM topCryptoRow
      | _ => .error .typeError

/-- Body of the `try` block of one `compare_cryptos` row (lines
216-220): `data["quotes"]["USD"]`, `price`, `percent_change_24h`,
`data["symbol"]`. -/
def compareRow (d : Json) : Except PyExn Unit := do
  let q ← d.getKey "quotes"
  let usd ← q.getKey "USD"
  let _ ← usd.getKey "price"
  let _ ← usd.getKey "percent_change_24h"
  let _ ← d.getKey "symbol"
  pure ()

/-- One iteration of the `for coin in coin_list:` loop of
`compare_cryptos` (lines 210-222): a `None` fetch prints a placeholder
row and continues; a fetched row runs `compareRow` under
`except KeyError` — so a `KeyError` is caught but a `TypeError` (for
example from subscripting a non-dict) escapes. -/
def compareOne (envi : AttemptResult) (coin : String) : Except PyExn Unit :=
  match get_crypto_price envi coin with
  | none => pure ()
  | some d =>
    match compareRow d with
    | .ok _ => pure ()
    | .error (.keyError _) => pure ()
    | .error e => .error e

/-- The `compare_cryptos` loop over the coin list, issuing one request
per coin (the oracle is indexed by the position of the coin in the
list). -/
def compareGo (env : Nat → AttemptResult) : Nat → List String →
    Except PyExn Unit
  | _, [] => pure ()
  | i, coin :: rest => do
    compareOne (env i) coin
    compareGo env (i + 1) rest

/-- `compare_cryptos(coin_list)` (lines 198-224). -/
def compare_cryptos (env : Nat → AttemptResult) (coin_list : List String) :
    Except PyExn Unit :=
  compareGo env 0 coin_list

/-- Python truthiness of the optional API-key environment variable:
`os.environ.get` yields `None` when the variable is unset, and an empty
string is falsy as well. -/
def keyFalsy : Option String → Bool
  | none => true
  | some s => s.data.isEmpty

/-- Number of startup warning lines printed by the module-level check
at lines 20-21 of src/part5_real_api.py: the single
`if not OPENWEATHER_API_KEY:` runs exactly once, when the module is
loaded. -/
def startupWarningCount (key : Option String) : Nat :=
  if keyFalsy key then 1 else 0

/-- `get_openweather(city_name)` (lines 105-127): when the key is falsy
it prints "No API key provided. Set OPENWEATHER_API_KEY environment
variable." and returns `None` WITHOUT issuing a request; otherwise it
issues the request with the usual handling.  The second component
records whether an HTTP request was made. -/
def get_openweather (key : Option String) (env : AttemptResult)
    (_city_name : String) : Option Json × Bool :=
  if keyFalsy key then (none, false)
  else (requestJson env, true)

/-- `display_openweather(city_name)` (lines 160-178): silent on `None`
or falsy data; otherwise `data.get` for `main`, `wind`, `weather`,
the conditional `weather_list[0]["description"]` subscripts, the
`main.get`/`wind.get` field reads and the final `condition.title()`
call — each a potential uncaught exception on an unexpected shape. -/
def display_openweather (key : Option String) (env : AttemptResult)
    (city_name : String) : Except PyExn Unit :=
  match (get_openweather key env city_name).1 with
  | none => pure ()
  | some d =>
    if d.falsy then pure ()
    else do
      let m ← d.pyGet "main" (.obj [])
      let w ← d.pyGet "wind" (.obj [])
      let wl ← d.pyGet "weather" (.arr [])
      let cond ←
        if wl.falsy then pure (Json.str "Unknown")
        else do
          let first ← wl.index0
          first.getKey "description"
      let _ ← m.pyGet "temp" (.str "N/A")
      let _ ← m.pyGet "humidity" (.str "N/A")
      let _ ← w.pyGet "speed" (.str "N/A")
      let _ ← cond.pyTitle
      pure ()

/-- Printed outcome of `save_to_json` (lines 87-103): `noData` is the
line "No data to save.", `savedTo f` is the success line naming the
file.  (The `except` branch around the file write reports an I/O
failure; file writes always succeed in this model, so that branch is
not reachable.) -/
inductive SaveMsg where
  | noData : SaveMsg
  | savedTo (filename : String) : SaveMsg
deriving DecidableEq

/-- `save_to_json(data, filename)` (lines 87-103) acting on the file
system modelled as a list of (name, content) writes, newest first: a
falsy `data` (`None`, empty dict, empty list, ...) prints "No data to
save." and performs no write; otherwise the file is written. -/
def save_to_json (data : Option Json) (filename : String)
    (files : List (String × Json)) : List (String × Json) × SaveMsg :=
  match data with
  | none => (files, .noData)
  | some d =>
    if d.falsy then (files, .noData)
    else ((filename, d) :: files, .savedTo filename)

/-- Process state the dashboard session can mutate: the
`last_post_data` global of src/part5_real_api.py (`none` models the
name not existing yet, so that `'last_post_data' in globals()` is the
`isSome` test) and the file writes performed so far. -/
structure DashState where
  last_post : Option Json
  files : List (String × Json)

/-- State at interpreter startup: `last_post_data` is not defined and
no file has been written. -/
def initState : DashState := ⟨none, []⟩

/-- `create_post()` (lines 264-290): reads and strips a title and a
body, returns unchanged on empty input; on a successful POST whose
response parses as JSON it assigns the global `last_post_data` BEFORE
printing `data.get("id")`, `data.get("title")`, `data.get("body")`
(each an `AttributeError` hazard on a non-dict payload); every
`requests.RequestException` — raised exception, error status via
`raise_for_status`, or JSON decode failure — is caught and leaves the
state unchanged. -/
def create_post (st : DashState) (titleRaw bodyRaw : String)
    (env : AttemptResult) : Except PyExn DashState :=
  if (pyStrip titleRaw).data.isEmpty || (pyStrip bodyRaw).data.isEmpty then
    pure st
  else
    match env with
    | .netFail => pure st
    | .reqExn _ => pure st
    | .resp status body =>
      if errStatus status then pure st
      else
        match body with
        | .notJson _ => pure st
        | .jsonOf d => do
          let st2 := { st with last_post := some d }
          let _ ← d.pyGet "id" .null
          let _ ← d.pyGet "title" .null
          let _ ← d.pyGet "body" .null
          pure st2

/-- What one iteration of the `while True:` dashboard loop does after
the action finishes: go back to the prompt, or leave the loop via the
`break` of choice "9". -/
inductive StepOutcome where
  | cont : StepOutcome
  | exited : StepOutcome
deriving DecidableEq

/-- Branch selection of the `dashboard()` loop body (lines 336-398):
`choice` is the already-stripped menu line, and the `if`/`elif` chain
runs the matching action.  Any exception an action raises propagates —
the loop body contains no `try`/`except`.  `inputs` holds the further
lines the chosen action reads via `input()`, in order; `env` gives the
outcome of the successive HTTP calls the iteration makes (indexed
from 0). -/
def dashboardDispatch (key : Option String) (st : DashState)
    (choice : String) (inputs : List String)
    (env : Nat → AttemptResult) : Except PyExn (DashState × StepOutcome) :=
  if choice = "1" then do
    let _ ← display_weather (env 0) (inputs.getD 0 "")
    pure (st, .cont)
  else if choice = "2" then do
    let _ ← display_crypto (env 0) (inputs.getD 0 "")
    pure (st, .cont)
  else if choice = "3" then do
    let _ ← display_top_cryptos (env 0)
    pure (st, .cont)
  else if choice = "4" then do
    let _ ← display_weather (env 0) "delhi"
    let _ ← display_crypto (env 1) "bitcoin"
    pure (st, .cont)
  else if choice = "5" then
    let coins := (((inputs.getD 0 "").splitOn ",").map pyStrip).filter
      (fun c => !c.data.isEmpty)
    if coins.isEmpty then pure (st, .cont)
    else do
      let _ ← compare_cryptos env coins
      pure (st, .cont)
  else if choice = "6" then do
    let st2 ← create_post st (inputs.getD 0 "") (inputs.getD 1 "") (env 0)
    pure (st2, .cont)
  else if choice = "7" then
    let sub := pyStrip (inputs.getD 0 "")
    if sub = "1" then
      let coin := pyStrip (inputs.getD 1 "")
      let data := get_crypto_price (env 0) coin
      pure ({ st with
        files := (save_to_json data (coin ++ "_data.json") st.files).1 },
        .cont)
    else if sub = "2" then
      let city := pyStrip (inputs.getD 1 "")
      let data := get_weather (env 0) city
      pure ({ st with
        files := (save_to_json data (city ++ "_weather.json") st.files).1 },
        .cont)
    else if sub = "3" then
      match st.last_post with
      | some d =>
        pure ({ st with
          files := (save_to_json (some d) "last_post.json" st.files).1 },
          .cont)
      | none => pure (st, .cont)
    else pure (st, .cont)
  else if choice = "8" then do
    let _ ← display_openweather key (env 0) (pyStrip (inputs.getD 0 ""))
    pure (st, .cont)
  else if choice = "9" then pure (st, .exited)
  else pure (st, .cont)

/-- One iteration of the `dashboard()` loop (lines 315-398): the menu
choice is read via `input("\nSelect (1-9): ").strip()` (line 334) and
dispatched. -/
def dashboardStep (key : Option String) (st : DashState)
    (choiceRaw : String) (inputs : List String)
    (env : Nat → AttemptResult) : Except PyExn (DashState × StepOutcome) :=
  dashboardDispatch key st (pyStrip choiceRaw) inputs env

/-- One unit of console interaction driving a dashboard iteration: the
menu line typed, the further lines the chosen action reads, and the
HTTP oracle for the calls it makes. -/
structure StepInput where
  choice : String
  inputs : List String
  env : Nat → AttemptResult

/-- The `while True:` loop of `dashboard()`: iterations run until the
exit choice breaks out; an exception raised by an iteration propagates
out of the loop (and of the process), which the model renders as the
`Except.error` result. -/
def dashboardLoop (key : Option String) :
    DashState → List StepInput → Except PyExn DashState
  | st, [] => pure st
  | st, i :: rest => do
    let (st2, out) ← dashboardStep key st i.choice i.inputs i.env
    match out with
    | .exited => pure st2
    | .cont => dashboardLoop key st2 rest

/-!
## Claims about `save_to_json` and the API key (part 5)
-/

/-- C10: for every falsy data value (`None`, empty dict, empty list,
or any other Python-falsy value), `save_to_json` prints "No data to
save." and returns without creating or modifying any file; a file is
written only when the data is non-empty (truthy). -/
theorem C10_save_falsy_no_write (data : Option Json) (filename : String)
    (files : List (String × Json)) :
    ((data = none ∨ ∃ j, data = some j ∧ j.falsy = true) →
      save_to_json data filename files = (files, .noData)) ∧
    ((save_to_json data filename files).1 ≠ files →
      ∃ j, data = some j ∧ j.falsy = false) := by
  constructor
  · rintro (rfl | ⟨j, rfl, hj⟩)
    · rfl
    · simp [save_to_json, hj]
  · intro hne
    match data with
    | none => exact absurd rfl hne
    | some j =>
      by_cases hj : j.falsy
      · exact absurd (by simp [save_to_json, hj]) hne
      · exact ⟨j, rfl, by simpa using hj⟩

/-- C10 witness: `None`, the empty dict and the empty list all leave
the file system untouched and print the no-data message. -/
theorem C10_save_falsy_no_write_witness :
    save_to_json none "results.json" [] = ([], .noData) ∧
    save_to_json (some (Json.obj [])) "results.json" [] = ([], .noData) ∧
    save_to_json (some (Json.arr [])) "results.json" [] = ([], .noData) :=
  ⟨(C10_save_falsy_no_write none "results.json" []).1 (Or.inl rfl),
   (C10_save_falsy_no_write (some (Json.obj [])) "results.json" []).1
     (Or.inr ⟨Json.obj [], rfl, rfl⟩),
   (C10_save_falsy_no_write (some (Json.arr [])) "results.json" []).1
     (Or.inr ⟨Json.arr [], rfl, rfl⟩)⟩

/-- A falsy API key makes `display_openweather` return silently without
touching the transport. -/
theorem display_openweather_keyFalsy (key : Option String)
    (env : AttemptResult) (city : String) (h : keyFalsy key = true) :
    display_openweather key env city = .ok () := by
  unfold display_openweather get_openweather
  rw [if_pos h]
  rfl

/-- C8: when the OpenWeatherMap API key environment variable is absent
(or empty) at startup the program does not crash: the startup warning
is printed exactly once, `get_openweather` reports the missing key and
returns `None` without making any HTTP request, its menu action "8"
still runs and returns control to the prompt, and every other menu
choice behaves identically to a run with a key present. -/
theorem C8_missing_key_disables_one_action (key : Option String) :
    (keyFalsy key = true → startupWarningCount key = 1) ∧
    (∀ env city, keyFalsy key = true →
      get_openweather key env city = (none, false)) ∧
    (∀ st inputs env, keyFalsy key = true →
      dashboardStep key st "8" inputs env = .ok (st, .cont)) ∧
    (∀ k2 st c inputs env, pyStrip c ≠ "8" →
      dashboardStep key st c inputs env = dashboardStep k2 st c inputs env) := by
  refine ⟨fun h => ?_, fun env city h => ?_, fun st inputs env h => ?_,
    fun k2 st c inputs env hc => ?_⟩
  · simp [startupWarningCount, h]
  · simp [get_openweather, h]
  · have hstep : dashboardStep key st "8" inputs env =
        (do
          let _ ← display_openweather key (env 0) (pyStrip (inputs.getD 0 ""))
          pure (st, StepOutcome.cont)) := rfl
    rw [hstep, display_openweather_keyFalsy key (env 0) _ h]
    rfl
  · show dashboardDispatch key st (pyStrip c) inputs env =
      dashboardDispatch k2 st (pyStrip c) inputs env
    generalize hch : pyStrip c = ch at hc ⊢
    by_cases h1 : ch = "1"
    · subst h1; rfl
    by_cases h2 : ch = "2"
    · subst h2; rfl
    by_cases h3 : ch = "3"
    · subst h3; rfl
    by_cases h4 : ch = "4"
    · subst h4; rfl
    by_cases h5 : ch = "5"
    · subst h5; rfl
    by_cases h6 : ch = "6"
    · subst h6; rfl
    by_cases h7 : ch = "7"
    · subst h7; rfl
    by_cases h9 : ch = "9"
    · subst h9; rfl
    unfold dashboardDispatch
    simp only [if_neg h1, if_neg h2, if_neg h3, if_neg h4, if_neg h5,
      if_neg h6, if_neg h7, if_neg hc, if_neg h9]

/-- C8 witness: with the key unset, the warning count is 1, a concrete
`get_openweather` call makes no request, menu choice "8" returns to the
prompt, and menu choice "2" behaves exactly as it would with a key. -/
theorem C8_missing_key_disables_one_action_witness :
    startupWarningCount none = 1 ∧
    get_openweather none AttemptResult.netFail "london" = (none, false) ∧
    dashboardStep none initState "8" ["london"] (fun _ => AttemptResult.netFail) =
      .ok (initState, .cont) ∧
    dashboardStep none initState "2" ["bitcoin"] (fun _ => AttemptResult.netFail) =
      dashboardStep (some "SECRET") initState "2" ["bitcoin"]
        (fun _ => AttemptResult.netFail) :=
  ⟨(C8_missing_key_disables_one_action none).1 rfl,
   (C8_missing_key_disables_one_action none).2.1 AttemptResult.netFail "london" rfl,
   (C8_missing_key_disables_one_action none).2.2.1 initState ["london"]
     (fun _ => AttemptResult.netFail) rfl,
   (C8_missing_key_disables_one_action none).2.2.2 (some "SECRET") initState
     "2" ["bitcoin"] (fun _ => AttemptResult.netFail) (by decide)⟩

/-!
## Claim C1: failures and the dispatcher loop
-/

/-- A handled request failure makes `display_weather` return silently
whether or not the city is known. -/
theorem display_weather_reqFail (env : AttemptResult) (city : String)
    (h : requestJson env = none) : display_weather env city = .ok () := by
  unfold display_weather get_weather
  by_cases hcity : cityNames.contains (pyStrip (pyLower city))
  · rw [if_pos hcity, h]
    rfl
  · rw [if_neg hcity]
    rfl

/-- A handled request failure makes `display_crypto` print its
not-found message and return. -/
theorem display_crypto_reqFail (env : AttemptResult) (coin : String)
    (h : requestJson env = none) : display_crypto env coin = .ok () := by
  unfold display_crypto get_crypto_price
  rw [h]
  rfl

/-- A handled request failure makes `display_top_cryptos` return
silently. -/
theorem display_top_cryptos_reqFail (env : AttemptResult)
    (h : requestJson env = none) : display_top_cryptos env = .ok () := by
  unfold display_top_cryptos get_top_cryptos
  rw [h]
  rfl

/-- A handled request failure on every call makes the
`compare_cryptos` loop print placeholder rows and finish. -/
theorem compareGo_reqFail (env : Nat → AttemptResult)
    (henv : ∀ i, requestJson (env i) = none) :
    ∀ coins i, compareGo env i coins = .ok () := by
  intro coins
  induction coins with
  | nil => intro i; rfl
  | cons coin rest ih =>
    intro i
    show (do
      compareOne (env i) coin
      compareGo env (i + 1) rest) = .ok ()
    have h1 : compareOne (env i) coin = .ok () := by
      unfold compareOne get_crypto_price
      rw [henv i]
      rfl
    rw [h1, ih (i + 1)]
    rfl

/-- A handled request failure (or empty title/body) leaves `create_post`
with the state unchanged and no escaping exception. -/
theorem create_post_reqFail (st : DashState) (t b : String)
    (env : AttemptResult) (h : requestJson env = none) :
    create_post st t b env = .ok st := by
  unfold create_post
  by_cases hempty :
    ((pyStrip t).data.isEmpty || (pyStrip b).data.isEmpty) = true
  · rw [if_pos hempty]
    rfl
  · rw [if_neg hempty]
    unfold requestJson at h
    rcases env with _ | m | ⟨status, body⟩
    · rfl
    · rfl
    · by_cases hs : errStatus status = true
      · simp only [hs, if_true]
        rfl
      · rcases body with p | e
        · simp [hs] at h
        · simp [hs]
          rfl

/-- A handled request failure makes `display_openweather` return
silently for any key. -/
theorem display_openweather_reqFail (key : Option String)
    (env : AttemptResult) (city : String) (h : requestJson env = none) :
    display_openweather key env city = .ok () := by
  unfold display_openweather get_openweather
  by_cases hk : keyFalsy key = true
  · rw [if_pos hk]
    rfl
  · rw [if_neg hk]
    simp only [h]
    rfl

/-- C1 counterexample: an error raised during an action is NOT caught
at the dispatcher boundary.  A crypto lookup (menu choice "2") whose
200-status response is a JSON object without the "quotes" key raises
`KeyError` at line 236 of src/part5_real_api.py (`data["quotes"]`);
the `dashboard()` loop body has no handler, so the exception escapes
and terminates the loop — the later exit iteration is never reached. -/
theorem C1_keyerror_escapes_loop :
    dashboardLoop none initState
      [⟨"2", ["bitcoin"], fun _ =>
          AttemptResult.resp 200
            (Body.jsonOf (Json.obj [("name", Json.str "Bitcoin")]))⟩,
       ⟨"9", [], fun _ => AttemptResult.netFail⟩] =
      .error (.keyError "quotes") := rfl

/-- C1 (amended): every action catches request-level failures
(`requests.RequestException`: raised connection/timeout errors, other
request exceptions, error HTTP statuses via `raise_for_status`, and
JSON decode failures) inside the action, renders a one-line message
and returns control to the prompt, so such failures never terminate
the loop: whenever every HTTP call of the iteration fails at the
request level, the dispatcher step completes without an escaping
exception for EVERY menu choice.  (Errors outside that class, such as
a `KeyError` on an unexpected JSON shape, escape — see the
counterexample.) -/
theorem C1_request_failures_return_to_prompt (key : Option String)
    (st : DashState) (c : String) (inputs : List String)
    (env : Nat → AttemptResult)
    (henv : ∀ i, requestJson (env i) = none) :
    ∃ st2 out, dashboardStep key st c inputs env = .ok (st2, out) := by
  show ∃ st2 out,
    dashboardDispatch key st (pyStrip c) inputs env = .ok (st2, out)
  generalize pyStrip c = ch
  by_cases h1 : ch = "1"
  · subst h1
    refine ⟨st, .cont, ?_⟩
    show (do
      let _ ← display_weather (env 0) (inputs.getD 0 "")
      pure (st, StepOutcome.cont)) = _
    rw [display_weather_reqFail (env 0) _ (henv 0)]
    rfl
  by_cases h2 : ch = "2"
  · subst h2
    refine ⟨st, .cont, ?_⟩
    show (do
      let _ ← display_crypto (env 0) (inputs.getD 0 "")
      pure (st, StepOutcome.cont)) = _
    rw [display_crypto_reqFail (env 0) _ (henv 0)]
    rfl
  by_cases h3 : ch = "3"
  · subst h3
    refine ⟨st, .cont, ?_⟩
    show (do
      let _ ← display_top_cryptos (env 0)
      pure (st, StepOutcome.cont)) = _
    rw [display_top_cryptos_reqFail (env 0) (henv 0)]
    rfl
  by_cases h4 : ch = "4"
  · subst h4
    refine ⟨st, .cont, ?_⟩
    show (do
      let _ ← display_weather (env 0) "delhi"
      let _ ← display_crypto (env 1) "bitcoin"
      pure (st, StepOutcome.cont)) = _
    rw [display_weather_reqFail (env 0) _ (henv 0)]
    show (do
      let _ ← display_crypto (env 1) "bitcoin"
      pure (st, StepOutcome.cont)) = _
    rw [display_crypto_reqFail (env 1) _ (henv 1)]
    rfl
  by_cases h5 : ch = "5"
  · subst h5
    refine ⟨st, .cont, ?_⟩
    have hd5 : dashboardDispatch key st "5" inputs env =
        (if ((((inputs.getD 0 "").splitOn ",").map pyStrip).filter
            (fun x => !x.data.isEmpty)).isEmpty = true then
          (pure (st, StepOutcome.cont) :
            Except PyExn (DashState × StepOutcome))
        else do
          let _ ← compare_cryptos env
            ((((inputs.getD 0 "").splitOn ",").map pyStrip).filter
              (fun x => !x.data.isEmpty))
          pure (st, StepOutcome.cont)) := rfl
    rw [hd5]
    by_cases hce : ((((inputs.getD 0 "").splitOn ",").map pyStrip).filter
        (fun x => !x.data.isEmpty)).isEmpty = true
    · rw [if_pos hce]
      rfl
    · rw [if_neg hce]
      have hcg : compare_cryptos env
          ((((inputs.getD 0 "").splitOn ",").map pyStrip).filter
            (fun x => !x.data.isEmpty)) = .ok () :=
        compareGo_reqFail env henv _ 0
      rw [hcg]
      rfl
  by_cases h6 : ch = "6"
  · subst h6
    refine ⟨st, .cont, ?_⟩
    show (do
      let st2 ← create_post st (inputs.getD 0 "") (inputs.getD 1 "") (env 0)
      pure (st2, StepOutcome.cont)) = _
    rw [create_post_reqFail st _ _ (env 0) (henv 0)]
    rfl
  by_cases h7 : ch = "7"
  · subst h7
    have hd7 : dashboardDispatch key st "7" inputs env =
        (if pyStrip (inputs.getD 0 "") = "1" then
          (pure ({ st with files := (save_to_json
              (get_crypto_price (env 0) (pyStrip (inputs.getD 1 "")))
              (pyStrip (inputs.getD 1 "") ++ "_data.json") st.files).1 },
            StepOutcome.cont) : Except PyExn (DashState × StepOutcome))
        else if pyStrip (inputs.getD 0 "") = "2" then
          pure ({ st with files := (save_to_json
              (get_weather (env 0) (pyStrip (inputs.getD 1 "")))
              (pyStrip (inputs.getD 1 "") ++ "_weather.json") st.files).1 },
            StepOutcome.cont)
        else if pyStrip (inputs.getD 0 "") = "3" then
          match st.last_post with
          | some d => pure ({ st with files := (save_to_json (some d)
              "last_post.json" st.files).1 }, StepOutcome.cont)
          | none => pure (st, StepOutcome.cont)
        else pure (st, StepOutcome.cont)) := rfl
    by_cases hs1 : pyStrip (inputs.getD 0 "") = "1"
    · refine ⟨{ st with files := (save_to_json
          (get_crypto_price (env 0) (pyStrip (inputs.getD 1 "")))
          (pyStrip (inputs.getD 1 "") ++ "_data.json") st.files).1 },
        .cont, ?_⟩
      rw [hd7, if_pos hs1]
      rfl
    by_cases hs2 : pyStrip (inputs.getD 0 "") = "2"
    · refine ⟨{ st with files := (save_to_json
          (get_weather (env 0) (pyStrip (inputs.getD 1 "")))
          (pyStrip (inputs.getD 1 "") ++ "_weather.json") st.files).1 },
        .cont, ?_⟩
      rw [hd7, if_neg hs1, if_pos hs2]
      rfl
    by_cases hs3 : pyStrip (inputs.getD 0 "") = "3"
    · rcases hlp : st.last_post with _ | d
      · refine ⟨st, .cont, ?_⟩
        rw [hd7, if_neg hs1, if_neg hs2, if_pos hs3, hlp]
        rfl
      · refine ⟨{ st with files := (save_to_json (some d)
            "last_post.json" st.files).1 }, .cont, ?_⟩
        rw [hd7, if_neg hs1, if_neg hs2, if_pos hs3, hlp]
        rfl
    · refine ⟨st, .cont, ?_⟩
      rw [hd7, if_neg hs1, if_neg hs2, if_neg hs3]
      rfl
  by_cases h8 : ch = "8"
  · subst h8
    refine ⟨st, .cont, ?_⟩
    show (do
      let _ ← display_openweather key (env 0) (pyStrip (inputs.getD 0 ""))
      pure (st, StepOutcome.cont)) = _
    rw [display_openweather_reqFail key (env 0) _ (henv 0)]
    rfl
  by_cases h9 : ch = "9"
  · subst h9
    exact ⟨st, .exited, rfl⟩
  refine ⟨st, .cont, ?_⟩
  unfold dashboardDispatch
  simp only [if_neg h1, if_neg h2, if_neg h3, if_neg h4, if_neg h5,
    if_neg h6, if_neg h7, if_neg h8, if_neg h9]
  rfl

/-- C1 amended-claim witness: with the transport failing on every call,
the crypto action (choice "2") completes and control returns to the
prompt. -/
theorem C1_request_failures_return_to_prompt_witness :
    ∃ st2 out, dashboardStep none initState "2" ["bitcoin"]
      (fun _ => AttemptResult.netFail) = .ok (st2, out) :=
  C1_request_failures_return_to_prompt none initState "2" ["bitcoin"]
    (fun _ => AttemptResult.netFail) (fun _ => rfl)

/-!
## Claim C7: the `last_post_data` slot
-/

/-- Sequencing a unit action before a pure result: the loop iteration
returns exactly that result when the action succeeds, and cannot
return a value when the action raises. -/
theorem bind_unit_ok (a : Except PyExn Unit) (v w : DashState × StepOutcome)
    (h : (do
      let _ ← a
      pure v : Except PyExn (DashState × StepOutcome)) = .ok w) : v = w := by
  rcases a with e | u
  · exact Except.noConfusion h
  · exact Except.ok.inj h

/-- Same as `bind_unit_ok` for an iteration running two actions. -/
theorem bind2_unit_ok (a b : Except PyExn Unit) (v w : DashState × StepOutcome)
    (h : (do
      let _ ← a
      let _ ← b
      pure v : Except PyExn (DashState × StepOutcome)) = .ok w) : v = w := by
  rcases a with e | u
  · exact Except.noConfusion h
  · rcases b with e2 | u2
    · exact Except.noConfusion h
    · exact Except.ok.inj h

/-- State component of a loop iteration that completes with a pure
result after a unit action. -/
theorem step_pure_state (a : Except PyExn Unit) (st st2 : DashState)
    (o out : StepOutcome)
    (h : (do
      let _ ← a
      pure (st, o) : Except PyExn (DashState × StepOutcome)) = .ok (st2, out)) :
    st2.last_post = st.last_post :=
  (congrArg (fun q => q.1.last_post) (bind_unit_ok a _ _ h)).symm

/-- When `create_post` returns normally, either it left the state
unchanged (empty input or caught request failure), or the POST
succeeded with a JSON payload: the response was a non-error status
whose body parsed (necessarily a dict, or the `data.get` prints would
have raised), title and body were non-empty after stripping, and the
`last_post_data` slot now holds exactly that payload. -/
theorem create_post_last_post (st : DashState) (t b : String)
    (r : AttemptResult) (stc : DashState)
    (h : create_post st t b r = .ok stc) :
    stc.last_post = st.last_post ∨
    (∃ s p, r = AttemptResult.resp s (Body.jsonOf p) ∧
      errStatus s = false ∧
      ((pyStrip t).data.isEmpty || (pyStrip b).data.isEmpty) = false ∧
      stc.last_post = some p) := by
  by_cases hempty :
    ((pyStrip t).data.isEmpty || (pyStrip b).data.isEmpty) = true
  · simp only [create_post, if_pos hempty] at h
    left
    rw [← Except.ok.inj h]
  · rcases r with _ | m | ⟨status, body⟩
    · simp only [create_post, if_neg hempty] at h
      left
      rw [← Except.ok.inj h]
    · simp only [create_post, if_neg hempty] at h
      left
      rw [← Except.ok.inj h]
    · rcases body with p | e
      · by_cases hs : errStatus status = true
        · simp only [create_post, if_neg hempty] at h
          rw [if_pos hs] at h
          left
          rw [← Except.ok.inj h]
        · simp only [create_post, if_neg hempty] at h
          rw [if_neg hs] at h
          rcases p with _ | b2 | n | s2 | xs | kvs
          · exact Except.noConfusion h
          · exact Except.noConfusion h
          · exact Except.noConfusion h
          · exact Except.noConfusion h
          · exact Except.noConfusion h
          · right
            have h2 := Except.ok.inj h
            subst h2
            exact ⟨status, .obj kvs, rfl, by simpa using hs,
              by simpa using hempty, rfl⟩
      · simp only [create_post, if_neg hempty, ite_self] at h
        left
        rw [← Except.ok.inj h]

/-- C7 counterexample: a create whose successful response payload is
the empty JSON object writes the slot, yet the subsequent save action
(choice "7", sub-choice "3") reports "No data to save." and writes no
file — contradicting the claim that a save after a successful create
always persists the payload. -/
theorem C7_falsy_payload_counterexample :
    dashboardStep none initState "6" ["t", "b"]
      (fun _ => AttemptResult.resp 201 (Body.jsonOf (Json.obj []))) =
      .ok (⟨some (Json.obj []), []⟩, .cont) ∧
    dashboardStep none ⟨some (Json.obj []), []⟩ "7" ["3"]
      (fun _ => AttemptResult.netFail) =
      .ok (⟨some (Json.obj []), []⟩, .cont) :=
  ⟨rfl, rfl⟩

/-- C7 (amended): the `last_post_data` slot is absent until a create
action succeeds and is written only by a successful create (any step
that returns normally either preserves the slot or is a choice-"6"
iteration whose POST returned a non-error JSON payload that now fills
the slot); invoking the save-last-result action (choice "7", sub-choice
"3") after a successful create writes exactly the payload of the most
recent successful create PROVIDED that payload is truthy — a falsy
payload (e.g. the empty object) is reported as "No data to save." with
no write — and invoking it before any successful create prints "No
POST data available to save." and performs no file write. -/
theorem C7_last_post_slot :
    initState.last_post = none ∧
    (∀ key st c inputs env st2 out,
      dashboardStep key st c inputs env = .ok (st2, out) →
      st2.last_post = st.last_post ∨
      (pyStrip c = "6" ∧ ∃ s p,
        env 0 = AttemptResult.resp s (Body.jsonOf p) ∧
        errStatus s = false ∧
        ((pyStrip (inputs.getD 0 "")).data.isEmpty ||
          (pyStrip (inputs.getD 1 "")).data.isEmpty) = false ∧
        st2.last_post = some p)) ∧
    (∀ key st p rest env, st.last_post = some p → p.falsy = false →
      dashboardStep key st "7" ("3" :: rest) env =
        .ok ({ st with files := ("last_post.json", p) :: st.files },
          StepOutcome.cont)) ∧
    (∀ key st rest env, st.last_post = none →
      dashboardStep key st "7" ("3" :: rest) env =
        .ok (st, StepOutcome.cont)) := by
  refine ⟨rfl, ?_, ?_, ?_⟩
  · intro key st c inputs env st2 out heq
    rw [show dashboardStep key st c inputs env =
      dashboardDispatch key st (pyStrip c) inputs env from rfl] at heq
    generalize hch : pyStrip c = ch at heq ⊢
    by_cases h1 : ch = "1"
    · subst h1
      replace heq : (do
          let _ ← display_weather (env 0) (inputs.getD 0 "")
          pure (st, StepOutcome.cont) :
          Except PyExn (DashState × StepOutcome)) = .ok (st2, out) := heq
      exact Or.inl (step_pure_state _ st st2 _ _ heq)
    by_cases h2 : ch = "2"
    · subst h2
      replace heq : (do
          let _ ← display_crypto (env 0) (inputs.getD 0 "")
          pure (st, StepOutcome.cont) :
          Except PyExn (DashState × StepOutcome)) = .ok (st2, out) := heq
      exact Or.inl (step_pure_state _ st st2 _ _ heq)
    by_cases h3 : ch = "3"
    · subst h3
      replace heq : (do
          let _ ← display_top_cryptos (env 0)
          pure (st, StepOutcome.cont) :
          Except PyExn (DashState × StepOutcome)) = .ok (st2, out) := heq
      exact Or.inl (step_pure_state _ st st2 _ _ heq)
    by_cases h4 : ch = "4"
    · subst h4
      replace heq : (do
          let _ ← display_weather (env 0) "delhi"
          let _ ← display_crypto (env 1) "bitcoin"
          pure (st, StepOutcome.cont) :
          Except PyExn (DashState × StepOutcome)) = .ok (st2, out) := heq
      exact Or.inl
        ((congrArg (fun q => q.1.last_post) (bind2_unit_ok _ _ _ _ heq)).symm)
    by_cases h5 : ch = "5"
    · subst h5
      replace heq : (if ((((inputs.getD 0 "").splitOn ",").map pyStrip).filter
            (fun x => !x.data.isEmpty)).isEmpty = true then
          (pure (st, StepOutcome.cont) :
            Except PyExn (DashState × StepOutcome))
        else do
          let _ ← compare_cryptos env
            ((((inputs.getD 0 "").splitOn ",").map pyStrip).filter
              (fun x => !x.data.isEmpty))
          pure (st, StepOutcome.cont)) = .ok (st2, out) := heq
      by_cases hce : ((((inputs.getD 0 "").splitOn ",").map pyStrip).filter
          (fun x => !x.data.isEmpty)).isEmpty = true
      · rw [if_pos hce] at heq
        exact Or.inl
          ((congrArg (fun q => q.1.last_post) (Except.ok.inj heq)).symm)
      · rw [if_neg hce] at heq
        exact Or.inl (step_pure_state _ st st2 _ _ heq)
    by_cases h6 : ch = "6"
    · subst h6
      replace heq : (do
          let stc ← create_post st (inputs.getD 0 "") (inputs.getD 1 "")
            (env 0)
          pure (stc, StepOutcome.cont) :
          Except PyExn (DashState × StepOutcome)) = .ok (st2, out) := heq
      rcases hcp : create_post st (inputs.getD 0 "") (inputs.getD 1 "")
          (env 0) with e | stc
      · rw [hcp] at heq
        exact Except.noConfusion heq
      · rw [hcp] at heq
        have hpair := Except.ok.inj heq
        have hst : stc = st2 := congrArg Prod.fst hpair
        subst hst
        rcases create_post_last_post st _ _ _ _ hcp with hsame | hset
        · exact Or.inl hsame
        · exact Or.inr ⟨rfl, hset⟩
    by_cases h7 : ch = "7"
    · subst h7
      replace heq : (if pyStrip (inputs.getD 0 "") = "1" then
            (pure ({ st with files := (save_to_json
                (get_crypto_price (env 0) (pyStrip (inputs.getD 1 "")))
                (pyStrip (inputs.getD 1 "") ++ "_data.json") st.files).1 },
              StepOutcome.cont) : Except PyExn (DashState × StepOutcome))
          else if pyStrip (inputs.getD 0 "") = "2" then
            pure ({ st with files := (save_to_json
                (get_weather (env 0) (pyStrip (inputs.getD 1 "")))
                (pyStrip (inputs.getD 1 "") ++ "_weather.json") st.files).1 },
              StepOutcome.cont)
          else if pyStrip (inputs.getD 0 "") = "3" then
            match st.last_post with
            | some d => pure ({ st with files := (save_to_json (some d)
                "last_post.json" st.files).1 }, StepOutcome.cont)
            | none => pure (st, StepOutcome.cont)
          else pure (st, StepOutcome.cont)) = .ok (st2, out) := heq
      by_cases hs1 : pyStrip (inputs.getD 0 "") = "1"
      · rw [if_pos hs1] at heq
        exact Or.inl
          ((congrArg (fun q => q.1.last_post) (Except.ok.inj heq)).symm)
      rw [if_neg hs1] at heq
      by_cases hs2 : pyStrip (inputs.getD 0 "") = "2"
      · rw [if_pos hs2] at heq
        exact Or.inl
          ((congrArg (fun q => q.1.last_post) (Except.ok.inj heq)).symm)
      rw [if_neg hs2] at heq
      by_cases hs3 : pyStrip (inputs.getD 0 "") = "3"
      · rw [if_pos hs3] at heq
        rcases hlp : st.last_post with _ | d
        · rw [hlp] at heq
          replace heq : (pure (st, StepOutcome.cont) :
              Except PyExn (DashState × StepOutcome)) = .ok (st2, out) := heq
          exact Or.inl
            (((congrArg (fun q => q.1.last_post)
              (Except.ok.inj heq)).symm).trans hlp)
        · rw [hlp] at heq
          replace heq : (pure ((⟨some d,
              (save_to_json (some d) "last_post.json" st.files).1⟩ :
              DashState), StepOutcome.cont) :
              Except PyExn (DashState × StepOutcome)) = .ok (st2, out) := heq
          exact Or.inl
            ((congrArg (fun q => q.1.last_post) (Except.ok.inj heq)).symm)
      · rw [if_neg hs3] at heq
        exact Or.inl
          ((congrArg (fun q => q.1.last_post) (Except.ok.inj heq)).symm)
    by_cases h8 : ch = "8"
    · subst h8
      replace heq : (do
          let _ ← display_openweather key (env 0) (pyStrip (inputs.getD 0 ""))
          pure (st, StepOutcome.cont) :
          Except PyExn (DashState × StepOutcome)) = .ok (st2, out) := heq
      exact Or.inl (step_pure_state _ st st2 _ _ heq)
    by_cases h9 : ch = "9"
    · subst h9
      replace heq : (pure (st, StepOutcome.exited) :
          Except PyExn (DashState × StepOutcome)) = .ok (st2, out) := heq
      exact Or.inl
        ((congrArg (fun q => q.1.last_post) (Except.ok.inj heq)).symm)
    unfold dashboardDispatch at heq
    rw [if_neg h1, if_neg h2, if_neg h3, if_neg h4, if_neg h5, if_neg h6,
      if_neg h7, if_neg h8, if_neg h9] at heq
    exact Or.inl ((congrArg (fun q => q.1.last_post) (Except.ok.inj heq)).symm)
  · intro key st p rest env hlp hpf
    have hd : dashboardStep key st "7" ("3" :: rest) env =
        (match st.last_post with
         | some d => (pure ({ st with files := (save_to_json (some d)
             "last_post.json" st.files).1 }, StepOutcome.cont) :
             Except PyExn (DashState × StepOutcome))
         | none => pure (st, StepOutcome.cont)) := rfl
    rw [hd, hlp]
    have hsv : save_to_json (some p) "last_post.json" st.files =
        (("last_post.json", p) :: st.files, .savedTo "last_post.json") := by
      simp [save_to_json, hpf]
    show (pure ((⟨some p,
        (save_to_json (some p) "last_post.json" st.files).1⟩ :
        DashState), StepOutcome.cont) :
        Except PyExn (DashState × StepOutcome)) = _
    rw [hsv]
    rfl
  · intro key st rest env hlp
    have hd : dashboardStep key st "7" ("3" :: rest) env =
        (match st.last_post with
         | some d => (pure ({ st with files := (save_to_json (some d)
             "last_post.json" st.files).1 }, StepOutcome.cont) :
             Except PyExn (DashState × StepOutcome))
         | none => pure (st, StepOutcome.cont)) := rfl
    rw [hd, hlp]
    rfl

/-- C7 witness: the amended claim evaluated concretely — the initial
slot is absent; a save after a state whose slot holds the truthy
payload `1` writes exactly that payload; a save on the initial state
writes nothing; and the frame property applied to a concrete exit
iteration reports the slot unchanged. -/
theorem C7_last_post_slot_witness :
    initState.last_post = none ∧
    dashboardStep none ⟨some (Json.num 1), []⟩ "7" ["3"]
      (fun _ => AttemptResult.netFail) =
      .ok (⟨some (Json.num 1), [("last_post.json", Json.num 1)]⟩,
        StepOutcome.cont) ∧
    dashboardStep none initState "7" ["3"] (fun _ => AttemptResult.netFail) =
      .ok (initState, StepOutcome.cont) ∧
    (initState.last_post = initState.last_post ∨
      (pyStrip "9" = "6" ∧ ∃ s p,
        (fun _ : Nat => AttemptResult.netFail) 0 =
          AttemptResult.resp s (Body.jsonOf p) ∧
        errStatus s = false ∧
        ((pyStrip (([] : List String).getD 0 "")).data.isEmpty ||
          (pyStrip (([] : List String).getD 1 "")).data.isEmpty) = false ∧
        initState.last_post = some p)) :=
  ⟨C7_last_post_slot.1,
   C7_last_post_slot.2.2.1 none ⟨some (Json.num 1), []⟩ (Json.num 1) []
     (fun _ => AttemptResult.netFail) rfl rfl,
   C7_last_post_slot.2.2.2 none initState [] (fun _ => AttemptResult.netFail)
     rfl,
   C7_last_post_slot.2.1 none initState "9" [] (fun _ => AttemptResult.netFail)
     initState .exited rfl⟩
